import Mathlib

/-!
Verification of the `nothing.js` defaults/object-utility module.

JavaScript values are embedded as `JSVal`; objects and arrays live in an
explicit `Heap` and are passed around as references, so that the module's
reference-level behaviour (the shared `object` singleton, in-place merges,
partial mutation before an exception) is captured faithfully.  Recursive
operations take a fuel argument because the JavaScript originals can diverge
on cyclic heaps; every theorem below supplies ample fuel.
-/

namespace NothingJS

/-- A JavaScript runtime value.  Objects and arrays are heap references;
functions are identified by an id (only reference equality matters). -/
inductive JSVal where
  | vUndefined : JSVal
  | vNull : JSVal
  | vNaN : JSVal
  | vNum (n : Int) : JSVal
  | vStr (s : String) : JSVal
  | vBool (b : Bool) : JSVal
  | vFun (id : Nat) : JSVal
  | vRef (r : Nat) : JSVal
deriving DecidableEq, Repr

/-- A heap cell: either an array or a plain object (own-enumerable fields in
insertion order). -/
inductive HObj where
  | arr (elems : List JSVal) : HObj
  | obj (fields : List (String × JSVal)) : HObj
deriving DecidableEq, Repr

/-- The heap: cells indexed by reference number. -/
structure Heap where
  objs : List HObj
deriving DecidableEq, Repr

/-- Errors an operation can raise: a JavaScript `TypeError` carrying its
message, or exhaustion of the model's fuel. -/
inductive JSErr where
  | typeError (msg : String) : JSErr
  | outOfFuel : JSErr
deriving DecidableEq, Repr

def heapObj (h : Heap) (r : Nat) : HObj :=
  h.objs.getD r (.obj [])

def objFields (h : Heap) (r : Nat) : List (String × JSVal) :=
  match heapObj h r with
  | .obj fs => fs
  | .arr _ => []

/-- Own-enumerable keys of an object value, in insertion order
(`for...in` over own properties). -/
def ownKeys (h : Heap) (v : JSVal) : List String :=
  match v with
  | .vRef r => (objFields h r).map Prod.fst
  | _ => []

/-- `Array.isArray(value)`. -/
def isArray (h : Heap) (v : JSVal) : Bool :=
  match v with
  | .vRef r =>
    match heapObj h r with
    | .arr _ => true
    | .obj _ => false
  | _ => false

def arrElems (h : Heap) (v : JSVal) : List JSVal :=
  match v with
  | .vRef r =>
    match heapObj h r with
    | .arr es => es
    | .obj _ => []
  | _ => []

/-- Property assignment on an association list: overwrite in place if the
key exists, otherwise append (JavaScript key-insertion order). -/
def setAssoc : List (String × JSVal) → String → JSVal → List (String × JSVal)
  | [], key, v => [(key, v)]
  | (k, w) :: rest, key, v =>
    if k == key then (key, v) :: rest else (k, w) :: setAssoc rest key v

/-- `delete source[key]` on an association list. -/
def delAssoc : List (String × JSVal) → String → List (String × JSVal)
  | [], _ => []
  | (k, w) :: rest, key =>
    if k == key then rest else (k, w) :: delAssoc rest key

/-- Property read `v[key]`: `undefined` when absent or when `v` is not an
object reference. -/
def getFieldV (h : Heap) (v : JSVal) (key : String) : JSVal :=
  match v with
  | .vRef r => ((objFields h r).lookup key).getD .vUndefined
  | _ => .vUndefined

/-- Property write `v[key] = w` (no-op on arrays and non-references, which
the module never exercises). -/
def setFieldV (h : Heap) (v : JSVal) (key : String) (w : JSVal) : Heap :=
  match v with
  | .vRef r =>
    match heapObj h r with
    | .obj fs => ⟨h.objs.set r (.obj (setAssoc fs key w))⟩
    | .arr es => ⟨h.objs.set r (.arr es)⟩
  | _ => h

/-- `delete v[key]`. -/
def delFieldV (h : Heap) (v : JSVal) (key : String) : Heap :=
  match v with
  | .vRef r =>
    match heapObj h r with
    | .obj fs => ⟨h.objs.set r (.obj (delAssoc fs key))⟩
    | .arr es => ⟨h.objs.set r (.arr es)⟩
  | _ => h

/-- `Object.prototype.hasOwnProperty.call(v, key)`. -/
def hasOwnV (h : Heap) (v : JSVal) (key : String) : Bool :=
  match v with
  | .vRef r => ((objFields h r).lookup key).isSome
  | _ => false

/-- Allocate a fresh empty plain object (`{}` literal). -/
def allocObj (h : Heap) : Heap × JSVal :=
  (⟨h.objs ++ [.obj []]⟩, .vRef h.objs.length)

/-- JavaScript truthiness. -/
def truthy : JSVal → Bool
  | .vUndefined => false
  | .vNull => false
  | .vNaN => false
  | .vNum n => n != 0
  | .vStr s => s != ""
  | .vBool b => b
  | .vFun _ => true
  | .vRef _ => true

/-- Strict equality `===`.  `NaN` is equal to nothing, references and
functions compare by identity. -/
def jsEq : JSVal → JSVal → Bool
  | .vNaN, _ => false
  | _, .vNaN => false
  | .vUndefined, .vUndefined => true
  | .vNull, .vNull => true
  | .vNum a, .vNum b => a == b
  | .vStr a, .vStr b => a == b
  | .vBool a, .vBool b => a == b
  | .vFun a, .vFun b => a == b
  | .vRef a, .vRef b => a == b
  | _, _ => false

/-- The `typeof` operator (note `typeof null` is `"object"`). -/
def jsTypeof : JSVal → String
  | .vUndefined => "undefined"
  | .vNull => "object"
  | .vNaN => "number"
  | .vNum _ => "number"
  | .vStr _ => "string"
  | .vBool _ => "boolean"
  | .vFun _ => "function"
  | .vRef _ => "object"

/-- Modelled from the spec: `typec.is_null` from `typec.js`, which is not
under `src/`.  Per the spec the absence check "covers null, undefined, and
not-a-number float values". -/
def typec_is_null : JSVal → Bool
  | .vNull => true
  | .vUndefined => true
  | .vNaN => true
  | _ => false

/-- Modelled from the spec: `typec.type_check` from `typec.js`, which is not
under `src/`.  `type_check(v, "object")` is the spec's generic "is this an
object-like container" check (true for plain objects and arrays, false for
null and primitives, since `shallow_merge(null, \x7b\x7d)` raises);
`type_check(v, "string")` tests for a string.  Only these two tags are used
by `nothing.js`. -/
def type_check (v : JSVal) (t : String) : Bool :=
  if t == "object" then
    match v with
    | .vRef _ => true
    | _ => false
  else if t == "string" then
    match v with
    | .vStr _ => true
    | _ => false
  else false

/-- The frozen `NOTHING` table.  Module initialisation allocates its
`object` entry (`Object.create(null)`) at heap reference 0 and its `array`
entry (`Array.from([])`) at reference 1; the no-op arrow function has
function id 0. -/
def NOTHING : List (String × JSVal) :=
  [("object", .vRef 0),
   ("string", .vStr ""),
   ("number", .vNum 0),
   ("boolean", .vBool false),
   ("array", .vRef 1),
   ("function", .vFun 0),
   ("null", .vNull),
   ("undefined", .vUndefined)]

/-- The heap as module initialisation leaves it: reference 0 is the shared
bare object `NOTHING.object`, reference 1 the shared empty array. -/
def initHeap : Heap := ⟨[.obj [], .arr []]⟩

/-- Table read `NOTHING[type]`: `undefined` when the key is absent. -/
def tableGet (type : String) : JSVal :=
  (NOTHING.lookup type).getD .vUndefined

/-- `by_type`: `NOTHING[type] || NOTHING["undefined"]` — the `||` falls
through to `undefined` whenever the table entry is falsy. -/
def by_type (type : String) : JSVal :=
  if truthy (tableGet type) then tableGet type else tableGet "undefined"

/-- `by_value`: `by_type(typeof value)`. -/
def by_value (value : JSVal) : JSVal :=
  by_type (jsTypeof value)

/-- `is_default`: null-likes, then arrays by length, then objects by key
count, then primitives by strict equality with `by_value`. -/
def is_default (h : Heap) (value : JSVal) : Bool :=
  if typec_is_null value then true
  else if isArray h value then arrElems h value == []
  else if jsTypeof value == "object" then ownKeys h value == []
  else jsEq value (by_value value)

/-- `set_default`: the value unless it is default, else the fallback. -/
def set_default (h : Heap) (value default_value : JSVal) : JSVal :=
  if !is_default h value then value else default_value

/-- `normalize`: null-likes become `by_type("null")`, all else unchanged. -/
def normalize (value : JSVal) : JSVal :=
  if typec_is_null value then by_type "null" else value

/-- The module constant `do_nothing = by_type("function")`. -/
def do_nothing : JSVal := by_type "function"

/-- The module constant `object = by_type("object")` — the shared bare
object at heap reference 0, aliased by every caller. -/
def object : JSVal := by_type "object"

/-- The property-copy loop of `from_object`.  Its `result` is the module
constant `object`, exactly as in `let result = object`; property names are
validated inside the loop, so a `TypeError` can follow earlier writes. -/
def fromGo : Heap → JSVal → List JSVal → Heap × Except JSErr JSVal
  | h, _, [] => (h, .ok object)
  | h, source, prop :: rest =>
    if !type_check prop "string" then
      (h, .error (.typeError ("Property name must be a string, but got " ++ jsTypeof prop)))
    else
      match prop with
      | .vStr key =>
        if hasOwnV h source key then
          fromGo (setFieldV h object key (getFieldV h source key)) source rest
        else fromGo h source rest
      | _ => fromGo h source rest

/-- `from_object(source, ...properties)`. -/
def from_object (h : Heap) (source : JSVal) (properties : List JSVal) :
    Heap × Except JSErr JSVal :=
  if !type_check source "object" then
    (h, .error (.typeError "Source must be an object."))
  else fromGo h source properties

/-- The key loop of `purification`, abstracted over the recursive call so
the whole definition stays structurally recursive on fuel.  Its `result` is
whatever `let result = object` bound — the shared singleton. -/
def puriGo (recur : Heap → JSVal → Int → Heap × Except JSErr JSVal)
    (result source : JSVal) (deep : Int) :
    Heap → List String → Heap × Except JSErr JSVal
  | h, [] => (h, .ok result)
  | h, key :: rest =>
    let sv := getFieldV h source key
    if is_default h sv then puriGo recur result source deep h rest
    else if type_check sv "object" then
      match recur h sv (if deep = -1 then -1 else deep - 1) with
      | (h2, .ok pv) => puriGo recur result source deep (setFieldV h2 result key pv) rest
      | (h2, .error e) => (h2, .error e)
    else puriGo recur result source deep (setFieldV h result key sv) rest

/-- `purification(source, deep = -1)`: depth short-circuit first, then the
type check, then the loop writing into the shared `object` singleton. -/
def purification : Nat → Heap → JSVal → Int → Heap × Except JSErr JSVal
  | 0, h, _, _ => (h, .error .outOfFuel)
  | fuel + 1, h, source, deep =>
    if deep ≤ 0 ∧ deep ≠ -1 then (h, .ok source)
    else if !type_check source "object" then
      (h, .error (.typeError "Source must be an object."))
    else puriGo (purification fuel) object source deep h (ownKeys h source)

/-- The key loop of `deep_merge`, abstracted over the recursive call.
`target[key] || \x7b\x7d` treats any falsy existing value as a fresh empty
object to merge into. -/
def dmGo (recur : Heap → JSVal → JSVal → Int → Heap × Except JSErr JSVal)
    (target source : JSVal) (deep : Int) :
    Heap → List String → Heap × Except JSErr JSVal
  | h, [] => (h, .ok target)
  | h, key :: rest =>
    let sv := getFieldV h source key
    if type_check sv "object" && !isArray h sv then
      let tv := getFieldV h target key
      let hb : Heap × JSVal := if truthy tv then (h, tv) else allocObj h
      match recur hb.1 hb.2 sv (if deep = -1 then -1 else deep - 1) with
      | (h2, .ok mv) => dmGo recur target source deep (setFieldV h2 target key mv) rest
      | (h2, .error e) => (h2, .error e)
    else dmGo recur target source deep (setFieldV h target key sv) rest

/-- `deep_merge(target, source, deep = -1)`: depth short-circuit first
(before the type check), then the loop. -/
def deep_merge : Nat → Heap → JSVal → JSVal → Int → Heap × Except JSErr JSVal
  | 0, h, _, _, _ => (h, .error .outOfFuel)
  | fuel + 1, h, target, source, deep =>
    if deep ≤ 0 ∧ deep ≠ -1 then (h, .ok target)
    else if !(type_check target "object" && type_check source "object") then
      (h, .error (.typeError "Both target and source must be objects."))
    else dmGo (deep_merge fuel) target source deep h (ownKeys h source)

/-- The key loop of `cut_default`, abstracted over the recursive call. -/
def cutGo (recur : Heap → JSVal → Int → Heap × Except JSErr Unit)
    (source : JSVal) (deep : Int) :
    Heap → List String → Heap × Except JSErr Unit
  | h, [] => (h, .ok ())
  | h, key :: rest =>
    let sv := getFieldV h source key
    if is_default h sv then cutGo recur source deep (delFieldV h source key) rest
    else if type_check sv "object" then
      match recur h sv (if deep = -1 then -1 else deep - 1) with
      | (h2, .ok _) => cutGo recur source deep h2 rest
      | (h2, .error e) => (h2, .error e)
    else cutGo recur source deep h rest

/-- `cut_default(source, deep = -1)`: type check first, then the depth
short-circuit, then the in-place deletion loop. -/
def cut_default : Nat → Heap → JSVal → Int → Heap × Except JSErr Unit
  | 0, h, _, _ => (h, .error .outOfFuel)
  | fuel + 1, h, source, deep =>
    if !type_check source "object" then
      (h, .error (.typeError "Source must be an object."))
    else if deep ≤ 0 ∧ deep ≠ -1 then (h, .ok ())
    else cutGo (cut_default fuel) source deep h (ownKeys h source)

/-- The copy loop of `shallow_merge`. -/
def smGo (target source : JSVal) : Heap → List String → Heap
  | h, [] => h
  | h, key :: rest => smGo target source (setFieldV h target key (getFieldV h source key)) rest

/-- `shallow_merge(target, source)`: both arguments validated before the
copy loop; the loop itself cannot raise. -/
def shallow_merge (h : Heap) (target source : JSVal) : Heap × Except JSErr JSVal :=
  if !(type_check target "object" && type_check source "object") then
    (h, .error (.typeError "Both target and source must be objects."))
  else (smGo target source h (ownKeys h source), .ok target)

/-- Recognises a raised `TypeError` (as opposed to success or fuel
exhaustion, the latter being an artefact of the model). -/
def isTE {α : Type} : Except JSErr α → Bool
  | .error (.typeError _) => true
  | _ => false

/-- A heap holding container test values: reference 1 an empty array,
reference 2 the array `[1]`, reference 0 an empty object, reference 3 the
object with single key `a`. -/
def containerHeap : Heap :=
  ⟨[.obj [], .arr [], .arr [.vNum 1], .obj [("a", .vNum 1)]]⟩

/-- Heap for the purification example: reference 3 is the source
`source = ⟨a:"", b:null, c:42, nested:(reference 2)⟩` with reference 2
holding `⟨d:0, e:5⟩`. -/
def puriHeap : Heap :=
  ⟨[.obj [], .arr [],
    .obj [("d", .vNum 0), ("e", .vNum 5)],
    .obj [("a", .vStr ""), ("b", .vNull), ("c", .vNum 42), ("nested", .vRef 2)]]⟩

/-- What `purification` actually leaves behind on `puriHeap`: everything is
written into the shared singleton at reference 0, the key `a` (empty
string) survives, the nested keys `d` and `e` are flattened into the same
container, and `nested` points back at the result itself. -/
def puriHeapAfter : Heap :=
  ⟨[.obj [("a", .vStr ""), ("c", .vNum 42), ("d", .vNum 0), ("e", .vNum 5),
          ("nested", .vRef 0)],
    .arr [],
    .obj [("d", .vNum 0), ("e", .vNum 5)],
    .obj [("a", .vStr ""), ("b", .vNull), ("c", .vNum 42), ("nested", .vRef 2)]]⟩

/-- Heap for the `from_object` example: reference 2 is `⟨a:1⟩`, reference 3
is `⟨b:2⟩`. -/
def foHeap : Heap :=
  ⟨[.obj [], .arr [], .obj [("a", .vNum 1)], .obj [("b", .vNum 2)]]⟩

/-- After `from_object(⟨a:1⟩, "a")`: the copy landed in the shared
singleton at reference 0. -/
def foHeapA : Heap :=
  ⟨[.obj [("a", .vNum 1)], .arr [], .obj [("a", .vNum 1)], .obj [("b", .vNum 2)]]⟩

/-- After a second call `from_object(⟨b:2⟩, "b")`: the singleton now holds
both keys, so the second result contains the never-requested key `a`. -/
def foHeapB : Heap :=
  ⟨[.obj [("a", .vNum 1), ("b", .vNum 2)], .arr [],
    .obj [("a", .vNum 1)], .obj [("b", .vNum 2)]]⟩

/-- Heap for the depth examples: reference 2 an empty target, reference 3
the source `⟨a:1⟩`. -/
def dmHeap : Heap :=
  ⟨[.obj [], .arr [], .obj [], .obj [("a", .vNum 1)]]⟩

/-- `dmHeap` after an unlimited merge: the target gained `a:1`. -/
def dmHeapFull : Heap :=
  ⟨[.obj [], .arr [], .obj [("a", .vNum 1)], .obj [("a", .vNum 1)]]⟩

/-- Heap for the depth-boundary example: target (reference 2) is
`⟨n:(reference 4)⟩` with reference 4 empty; source (reference 3) is
`⟨n:(reference 5), x:7⟩` with reference 5 holding `⟨y:9⟩`. -/
def dmNestHeap : Heap :=
  ⟨[.obj [], .arr [],
    .obj [("n", .vRef 4)],
    .obj [("n", .vRef 5), ("x", .vNum 7)],
    .obj [],
    .obj [("y", .vNum 9)]]⟩

/-- `dmNestHeap` after `deep_merge` with depth 1: the top-level key `x` is
copied but the nested container (reference 4) is untouched — the descent
into `n` ran with depth 0 and was a no-op. -/
def dmNestHeap1 : Heap :=
  ⟨[.obj [], .arr [],
    .obj [("n", .vRef 4), ("x", .vNum 7)],
    .obj [("n", .vRef 5), ("x", .vNum 7)],
    .obj [],
    .obj [("y", .vNum 9)]]⟩

/-- `dmNestHeap` after `deep_merge` with depth 2: one nested level is now
merged as well (reference 4 gained `y:9`). -/
def dmNestHeap2 : Heap :=
  ⟨[.obj [], .arr [],
    .obj [("n", .vRef 4), ("x", .vNum 7)],
    .obj [("n", .vRef 5), ("x", .vNum 7)],
    .obj [("y", .vNum 9)],
    .obj [("y", .vNum 9)]]⟩

/-- Heap for the partial-mutation example: target (reference 2) is
`⟨b:5⟩`; source (reference 3) is `⟨a:1, b:(reference 4)⟩` with reference 4
holding `⟨c:2⟩`. -/
def dmErrHeap : Heap :=
  ⟨[.obj [], .arr [],
    .obj [("b", .vNum 5)],
    .obj [("a", .vNum 1), ("b", .vRef 4)],
    .obj [("c", .vNum 2)]]⟩

/-- State in which `deep_merge` on `dmErrHeap` raises: the key `a` was
already copied into the target when the recursive call on the truthy
non-object `5` failed its type check. -/
def dmErrHeapAfter : Heap :=
  ⟨[.obj [], .arr [],
    .obj [("b", .vNum 5), ("a", .vNum 1)],
    .obj [("a", .vNum 1), ("b", .vRef 4)],
    .obj [("c", .vNum 2)]]⟩

/-- Heap family for the falsy-target example: target (reference 2) is
`⟨k:v⟩` for the given existing value `v`; source (reference 3) is
`⟨k:(reference 4)⟩` with reference 4 holding `⟨x:42⟩`. -/
def dmFalsyHeap (v : JSVal) : Heap :=
  ⟨[.obj [], .arr [],
    .obj [("k", v)],
    .obj [("k", .vRef 4)],
    .obj [("x", .vNum 42)]]⟩

/-- Same as `dmFalsyHeap` but with the key `k` entirely absent from the
target. -/
def dmFalsyHeapNoKey : Heap :=
  ⟨[.obj [], .arr [],
    .obj [],
    .obj [("k", .vRef 4)],
    .obj [("x", .vNum 42)]]⟩

/-- Common result of the falsy-target merges: the falsy existing value was
replaced by a freshly allocated object (reference 5) into which the source
container was merged. -/
def dmFalsyHeapAfter : Heap :=
  ⟨[.obj [], .arr [],
    .obj [("k", .vRef 5)],
    .obj [("k", .vRef 4)],
    .obj [("x", .vNum 42)],
    .obj [("x", .vNum 42)]]⟩

/-- The purification loop never raises a `TypeError` of its own: any
`TypeError` from a run of `purification` comes from the top-level argument
check, provided the recursive callee has the same property. -/
theorem puriGo_no_te (recur : Heap → JSVal → Int → Heap × Except JSErr JSVal)
    (hrec : ∀ h v d, type_check v "object" = true → isTE (recur h v d).2 = false)
    (result source : JSVal) (deep : Int) :
    ∀ keys h, isTE (puriGo recur result source deep h keys).2 = false := by
  intro keys
  induction keys with
  | nil => intro h; simp [puriGo, isTE]
  | cons key rest ih =>
    intro h
    simp only [puriGo]
    split
    · exact ih _
    · split
      · rcases hr : recur h (getFieldV h source key) (if deep = -1 then -1 else deep - 1)
          with ⟨h2, r2⟩
        cases r2 with
        | ok pv => exact ih _
        | error e =>
          have hne := hrec h (getFieldV h source key)
            (if deep = -1 then -1 else deep - 1) (by assumption)
          rw [hr] at hne
          exact hne
      · exact ih _

/-- On a genuine container argument, `purification` never raises a
`TypeError` (its only possible errors are fuel exhaustion, a model
artefact). -/
theorem purification_no_te :
    ∀ fuel h v d, type_check v "object" = true →
      isTE (purification fuel h v d).2 = false := by
  intro fuel
  induction fuel with
  | zero => intro h v d hv; simp [purification, isTE]
  | succ fuel ih =>
    intro h v d hv
    simp only [purification]
    split
    · simp [isTE]
    · split
      · simp_all
      · exact puriGo_no_te (purification fuel) ih object v d (ownKeys h v) h

/-- If a run of `purification` raises a `TypeError`, the heap is exactly
the input heap: the only type check sits before the copy loop. -/
theorem purification_te_unchanged :
    ∀ fuel h v d, isTE (purification fuel h v d).2 = true →
      (purification fuel h v d).1 = h := by
  intro fuel h v d hte
  cases fuel with
  | zero => simp [purification, isTE] at hte
  | succ fuel =>
    by_cases hd : d ≤ 0 ∧ d ≠ -1
    · simp [purification, hd, isTE] at hte
    · cases hc : type_check v "object" with
      | true =>
        have hnt := purification_no_te (fuel + 1) h v d hc
        simp [hnt] at hte
      | false => simp [purification, hd, hc]

/-- The `cut_default` loop never raises a `TypeError` of its own, provided
the recursive callee raises none on container arguments. -/
theorem cutGo_no_te (recur : Heap → JSVal → Int → Heap × Except JSErr Unit)
    (hrec : ∀ h v d, type_check v "object" = true → isTE (recur h v d).2 = false)
    (source : JSVal) (deep : Int) :
    ∀ keys h, isTE (cutGo recur source deep h keys).2 = false := by
  intro keys
  induction keys with
  | nil => intro h; simp [cutGo, isTE]
  | cons key rest ih =>
    intro h
    simp only [cutGo]
    split
    · exact ih _
    · split
      · rcases hr : recur h (getFieldV h source key) (if deep = -1 then -1 else deep - 1)
          with ⟨h2, r2⟩
        cases r2 with
        | ok u => exact ih _
        | error e =>
          have hne := hrec h (getFieldV h source key)
            (if deep = -1 then -1 else deep - 1) (by assumption)
          rw [hr] at hne
          exact hne
      · exact ih _

/-- On a genuine container argument, `cut_default` never raises a
`TypeError`. -/
theorem cut_default_no_te :
    ∀ fuel h v d, type_check v "object" = true →
      isTE (cut_default fuel h v d).2 = false := by
  intro fuel
  induction fuel with
  | zero => intro h v d hv; simp [cut_default, isTE]
  | succ fuel ih =>
    intro h v d hv
    simp only [cut_default]
    split
    · simp_all
    · split
      · simp [isTE]
      · exact cutGo_no_te (cut_default fuel) ih v d (ownKeys h v) h

/-- If a run of `cut_default` raises a `TypeError`, the heap is exactly the
input heap: the only type check sits before the deletion loop. -/
theorem cut_default_te_unchanged :
    ∀ fuel h v d, isTE (cut_default fuel h v d).2 = true →
      (cut_default fuel h v d).1 = h := by
  intro fuel h v d hte
  cases fuel with
  | zero => simp [cut_default, isTE] at hte
  | succ fuel =>
    cases hc : type_check v "object" with
    | true =>
      have hnt := cut_default_no_te (fuel + 1) h v d hc
      simp [hnt] at hte
    | false => simp [cut_default, hc]

/-- If `shallow_merge` raises a `TypeError`, the heap is exactly the input
heap: both arguments are validated before the copy loop, which cannot
raise. -/
theorem shallow_merge_te_unchanged :
    ∀ h t s, isTE (shallow_merge h t s).2 = true → (shallow_merge h t s).1 = h := by
  intro h t s hte
  cases hc : (!(type_check t "object" && type_check s "object")) with
  | true => simp [shallow_merge, hc]
  | false => simp [shallow_merge, hc, isTE] at hte

/-- C1: how `is_default` actually behaves on the canonical values.  It is
true for `[]`, `\x7b\x7d`, `null`, `undefined` and false for `[1]`,
`\x7ba:1\x7d`, `"x"`, `1`, `true` as claimed — but, contrary to the claim
and to the function's own documentation, it is FALSE on `""`, `0` and
`false`, because `by_type`'s `||` fallback makes `by_value` return
`undefined` for every falsy canonical default.  The scalar biconditional
also fails at `NaN`: `is_default(NaN)` is true while `NaN` strictly equals
nothing. -/
theorem is_default_code_divergence :
    is_default containerHeap (.vStr "") = false
    ∧ is_default containerHeap (.vNum 0) = false
    ∧ is_default containerHeap (.vBool false) = false
    ∧ is_default containerHeap .vNull = true
    ∧ is_default containerHeap .vUndefined = true
    ∧ is_default containerHeap (.vRef 1) = true
    ∧ is_default containerHeap (.vRef 0) = true
    ∧ is_default containerHeap (.vRef 2) = false
    ∧ is_default containerHeap (.vRef 3) = false
    ∧ is_default containerHeap (.vStr "x") = false
    ∧ is_default containerHeap (.vNum 1) = false
    ∧ is_default containerHeap (.vBool true) = false
    ∧ is_default containerHeap .vNaN = true
    ∧ jsEq .vNaN (by_value .vNaN) = false := by
  decide

/-- C2: how `by_type` actually behaves.  The `NOTHING` table does hold the
empty string, zero, false and null, but `NOTHING[type] || NOTHING["undefined"]`
discards every falsy entry, so `by_type` returns `undefined` for the tags
`string`, `number`, `boolean` and `null`, contrary to the claim and to the
function's own doc examples.  The truthy entries (object, array, function)
and the unrecognized-tag fallback behave as claimed. -/
theorem by_type_code_divergence :
    NOTHING.lookup "string" = some (.vStr "")
    ∧ NOTHING.lookup "number" = some (.vNum 0)
    ∧ NOTHING.lookup "boolean" = some (.vBool false)
    ∧ NOTHING.lookup "null" = some .vNull
    ∧ by_type "string" = .vUndefined
    ∧ by_type "number" = .vUndefined
    ∧ by_type "boolean" = .vUndefined
    ∧ by_type "null" = .vUndefined
    ∧ by_type "object" = .vRef 0
    ∧ by_type "array" = .vRef 1
    ∧ by_type "function" = .vFun 0
    ∧ by_type "nonsense" = .vUndefined := by
  decide

/-- C3: evaluating `purification` at the claim's own example
`⟨a:"", b:null, c:42, nested:⟨d:0, e:5⟩⟩` (unlimited depth).  Instead of a
fresh container `⟨c:42, nested:⟨e:5⟩⟩`, the code returns the shared
`object` singleton (reference 0), keeps `a:""` and `d:0` (both fail the
buggy `is_default`), flattens the nested keys into the same container, and
leaves `nested` pointing at the result itself. -/
theorem purification_code_divergence :
    purification 10 puriHeap (.vRef 3) (-1) = (puriHeapAfter, .ok (.vRef 0))
    ∧ object = .vRef 0
    ∧ getFieldV puriHeapAfter (.vRef 0) "a" = .vStr ""
    ∧ getFieldV puriHeapAfter (.vRef 0) "nested" = .vRef 0 := by
  refine ⟨rfl, by decide, by decide, by decide⟩

/-- C4: for every TypeTag in the closed set ⟨object, string, number,
boolean, array, function, null, undefined⟩, `is_default(by_type(t))` is
true on the freshly initialised module heap.  (This survives the `by_type`
fallback bug: the falsy defaults all come back as `undefined`, which
`is_default` accepts.) -/
theorem is_default_by_type_all_tags :
    is_default initHeap (by_type "object") = true
    ∧ is_default initHeap (by_type "string") = true
    ∧ is_default initHeap (by_type "number") = true
    ∧ is_default initHeap (by_type "boolean") = true
    ∧ is_default initHeap (by_type "array") = true
    ∧ is_default initHeap (by_type "function") = true
    ∧ is_default initHeap (by_type "null") = true
    ∧ is_default initHeap (by_type "undefined") = true := by
  decide

/-- C5: `from_object` does not build a new container — `let result = object`
aliases the shared singleton at reference 0.  Copying `a` from `⟨a:1⟩`
mutates the module constant, and a second call requesting only `b` from
`⟨b:2⟩` returns a container that still holds the never-requested key `a`. -/
theorem from_object_code_divergence :
    from_object foHeap (.vRef 2) [.vStr "a"] = (foHeapA, .ok (.vRef 0))
    ∧ from_object foHeapA (.vRef 3) [.vStr "b"] = (foHeapB, .ok (.vRef 0))
    ∧ object = .vRef 0
    ∧ getFieldV foHeapB (.vRef 0) "a" = .vNum 1 := by
  refine ⟨rfl, rfl, by decide, by decide⟩

/-- C6 counterexample: the claim says every negative depth means an
unlimited merge, but `deep <= 0 && deep !== -1` makes depth `-2` a no-op:
merging `⟨a:1⟩` into an empty target at depth `-2` changes nothing, while
the same merge at depth `-1` copies `a`. -/
theorem deep_merge_negative_depth_cex :
    deep_merge 10 dmHeap (.vRef 2) (.vRef 3) (-2) = (dmHeap, .ok (.vRef 2))
    ∧ deep_merge 10 dmHeap (.vRef 2) (.vRef 3) (-1) = (dmHeapFull, .ok (.vRef 2))
    ∧ dmHeap ≠ dmHeapFull := by
  refine ⟨rfl, rfl, by decide⟩

/-- C6 amended: depth 0 — indeed any depth `d ≤ 0` other than `-1` — makes
`deep_merge` a no-op returning the target unmodified; only the sentinel
`-1` means unlimited; and each recursive descent consumes exactly one unit
(depth 1 merges only the top level, depth 2 reaches one nested level,
`-1` merges fully). -/
theorem deep_merge_depth_semantics :
    (∀ (fuel : Nat) (h : Heap) (t s : JSVal) (d : Int), d ≤ 0 → d ≠ -1 →
      deep_merge (fuel + 1) h t s d = (h, .ok t))
    ∧ deep_merge 10 dmNestHeap (.vRef 2) (.vRef 3) 1 = (dmNestHeap1, .ok (.vRef 2))
    ∧ deep_merge 10 dmNestHeap (.vRef 2) (.vRef 3) 2 = (dmNestHeap2, .ok (.vRef 2))
    ∧ deep_merge 10 dmHeap (.vRef 2) (.vRef 3) (-1) = (dmHeapFull, .ok (.vRef 2)) := by
  refine ⟨?_, rfl, rfl, rfl⟩
  intro fuel h t s d h1 h2
  simp only [deep_merge]
  rw [if_pos ⟨h1, h2⟩]

/-- Witness for C6: the no-op clause applied at depth 0 on a concrete
state. -/
theorem deep_merge_depth_semantics_witness :
    deep_merge 10 dmHeap (.vRef 2) (.vRef 3) 0 = (dmHeap, .ok (.vRef 2)) :=
  deep_merge_depth_semantics.1 9 dmHeap (.vRef 2) (.vRef 3) 0 (by decide) (by decide)

/-- C7: `normalize` at the claimed inputs.  For `null`, `undefined` and
`NaN` it returns `by_type("null")`, which — because the table's null entry
is falsy and the `||` falls through — is `undefined`, NOT the canonical
null default `null` recorded in the `NOTHING` table; non-absent values pass
through unchanged. -/
theorem normalize_code_divergence :
    normalize .vNull = .vUndefined
    ∧ normalize .vUndefined = .vUndefined
    ∧ normalize .vNaN = .vUndefined
    ∧ normalize (.vStr "x") = .vStr "x"
    ∧ NOTHING.lookup "null" = some .vNull
    ∧ normalize .vNull ≠ .vNull := by
  decide

/-- C8 counterexample: `deep_merge` can raise a `TypeError` after having
already mutated the target.  Merging `⟨a:1, b:⟨c:2⟩⟩` into `⟨b:5⟩` first
copies `a:1` into the target, then fails the recursive type check on the
truthy non-object `5`; the error leaves the target mutated, refuting
"on error the target/result state is unchanged". -/
theorem deep_merge_partial_mutation_cex :
    deep_merge 10 dmErrHeap (.vRef 2) (.vRef 3) (-1)
      = (dmErrHeapAfter, .error (.typeError "Both target and source must be objects."))
    ∧ dmErrHeapAfter ≠ dmErrHeap
    ∧ getFieldV dmErrHeapAfter (.vRef 2) "a" = .vNum 1 := by
  refine ⟨rfl, by decide, by decide⟩

/-- C8 amended: `shallow_merge`, `cut_default` and `purification` validate
before mutating, so whenever they raise a `TypeError` the state is exactly
the input state; `from_object` and `deep_merge` only guarantee that their
top-level argument check precedes the loop — `from_object` validates
property names inside its copy loop and `deep_merge`'s recursive type check
can fail after earlier keys were assigned, so those two can leave partial
mutations on error. -/
theorem error_state_semantics :
    (∀ h t s, isTE (shallow_merge h t s).2 = true → (shallow_merge h t s).1 = h)
    ∧ (∀ fuel h v d, isTE (cut_default fuel h v d).2 = true →
        (cut_default fuel h v d).1 = h)
    ∧ (∀ fuel h v d, isTE (purification fuel h v d).2 = true →
        (purification fuel h v d).1 = h)
    ∧ (∀ h s ps, type_check s "object" = false →
        from_object h s ps = (h, .error (.typeError "Source must be an object.")))
    ∧ (∀ (fuel : Nat) (h : Heap) (t s : JSVal) (d : Int),
        (type_check t "object" && type_check s "object") = false →
        ¬(d ≤ 0 ∧ d ≠ -1) →
        deep_merge (fuel + 1) h t s d
          = (h, .error (.typeError "Both target and source must be objects."))) := by
  refine ⟨shallow_merge_te_unchanged, cut_default_te_unchanged,
    purification_te_unchanged, ?_, ?_⟩
  · intro h s ps hs
    simp [from_object, hs]
  · intro fuel h t s d hts hd
    simp only [deep_merge]
    rw [if_neg hd]
    simp [hts]

/-- Witness for C8: the `shallow_merge` clause applied to a raising call on
a concrete state. -/
theorem error_state_semantics_witness :
    (shallow_merge initHeap (.vNum 1) (.vNum 2)).1 = initHeap :=
  error_state_semantics.1 initHeap (.vNum 1) (.vNum 2) (by decide)

/-- C9: in `deep_merge`, `target[key] || \x7b\x7d` treats EVERY falsy
existing value — `0`, `""`, `false`, `null`, explicit `undefined`, or a
missing key — as an empty container: in each case the falsy value is
replaced by a freshly allocated object holding the recursively merged
source container. -/
theorem deep_merge_falsy_target_as_empty :
    deep_merge 10 (dmFalsyHeap (.vNum 0)) (.vRef 2) (.vRef 3) (-1)
      = (dmFalsyHeapAfter, .ok (.vRef 2))
    ∧ deep_merge 10 (dmFalsyHeap (.vStr "")) (.vRef 2) (.vRef 3) (-1)
      = (dmFalsyHeapAfter, .ok (.vRef 2))
    ∧ deep_merge 10 (dmFalsyHeap (.vBool false)) (.vRef 2) (.vRef 3) (-1)
      = (dmFalsyHeapAfter, .ok (.vRef 2))
    ∧ deep_merge 10 (dmFalsyHeap .vNull) (.vRef 2) (.vRef 3) (-1)
      = (dmFalsyHeapAfter, .ok (.vRef 2))
    ∧ deep_merge 10 (dmFalsyHeap .vUndefined) (.vRef 2) (.vRef 3) (-1)
      = (dmFalsyHeapAfter, .ok (.vRef 2))
    ∧ deep_merge 10 dmFalsyHeapNoKey (.vRef 2) (.vRef 3) (-1)
      = (dmFalsyHeapAfter, .ok (.vRef 2)) := by
  refine ⟨rfl, rfl, rfl, rfl, rfl, rfl⟩

/-- C10: `cut_default` checks its argument type before the depth budget, so
any non-container raises a `TypeError` even at depth 0 with the state
untouched; `purification` checks depth first, so at depth 0 it returns any
value — container or not — unchanged without raising. -/
theorem guard_order_cut_default_purification :
    (∀ fuel h v, type_check v "object" = false →
      cut_default (fuel + 1) h v 0
        = (h, .error (.typeError "Source must be an object.")))
    ∧ (∀ fuel h x, purification (fuel + 1) h x 0 = (h, .ok x)) := by
  constructor
  · intro fuel h v hv
    simp [cut_default, hv]
  · intro fuel h x
    simp only [purification]
    rw [if_pos (by decide : (0 : Int) ≤ 0 ∧ (0 : Int) ≠ -1)]

/-- Witness for C10: the `cut_default` clause applied to the non-container
`5` at depth 0. -/
theorem guard_order_cut_default_purification_witness :
    cut_default 10 initHeap (.vNum 5) 0
      = (initHeap, .error (.typeError "Source must be an object.")) :=
  guard_order_cut_default_purification.1 9 initHeap (.vNum 5) (by decide)

end NothingJS
